import Mathlib

/-!
Shallow embedding of `predict_level.py` (French flashcard difficulty
prediction).  Pandas float cells are modelled as `Option ℚ` where `none`
stands for NaN; NaN-propagating arithmetic and Python truthiness are made
explicit.  The classifier pipeline and label encoder are opaque external
artifacts, modelled as function parameters.
-/

namespace PredictLevel

/-- A cell of the `genre` column: either NaN (pandas missing value) or a
string.  Python truthiness on such a cell: NaN is truthy, a string is
truthy iff nonempty. -/
inductive GVal where
  | nan : GVal
  | str (s : String) : GVal
deriving DecidableEq, Repr

/-- Python truthiness of a `genre` cell (`bool(float('nan'))` is `True`,
`bool("")` is `False`). -/
def GVal.truthy : GVal → Bool
  | GVal.nan => true
  | GVal.str s => s ≠ ""

/-- Python `x or d` on a `genre` cell. -/
def pyOr (v d : GVal) : GVal := if v.truthy then v else d

/-- Python `x or d` on a float that may be NaN (`none`): NaN is truthy,
`0` is falsy, any other value is truthy. -/
def pyOrF (v : Option ℚ) (d : Option ℚ) : Option ℚ :=
  match v with
  | none => none
  | some a => if a = 0 then d else some a

/-- NaN-propagating addition of two float cells. -/
def addF : Option ℚ → Option ℚ → Option ℚ
  | some a, some b => some (a + b)
  | _, _ => none

/-- NaN-propagating halving of a float cell (division by 2). -/
def halfF : Option ℚ → Option ℚ
  | some a => some (a / 2)
  | none => none

/-- One row of the reference corpus (`df_master`).  The two frequency
columns are always present in the frame (the script indexes them
unconditionally), but individual cells may be NaN. -/
structure CorpusRecord where
  lemme : String
  cgram : String
  genre : GVal
  freqlemfilms2 : Option ℚ
  freqlemlivres : Option ℚ
deriving DecidableEq, Repr

/-- The reference corpus: its rows plus a flag recording whether the
optional `genre` column is present (the script reads it with
`row.get('genre', 'none')`). -/
structure Corpus where
  rows : List CorpusRecord
  hasGenre : Bool
deriving DecidableEq, Repr

/-- The feature record produced by `prepare_input` for one word. -/
structure FeatureRecord where
  lemme : String
  cgram : String
  genre : GVal
  avg_freq : Option ℚ
deriving DecidableEq, Repr

/-- Python `w.strip()`: remove leading and trailing whitespace characters
from the word. -/
def pyStrip (w : String) : String :=
  String.mk (((w.data.dropWhile Char.isWhitespace).reverse.dropWhile
    Char.isWhitespace).reverse)

/-- `df_master[df_master['lemme'] == s]` followed by `.iloc[0]`: the first
corpus row whose lemma equals `s` exactly. -/
def lookup (c : Corpus) (s : String) : Option CorpusRecord :=
  c.rows.find? (fun r => r.lemme == s)

/-- Per-record mean of the two frequency measures with
`mean(axis=1, skipna=True)` semantics: NaN cells are skipped, and a row
whose cells are both NaN yields NaN. -/
def rowMeanSkip (r : CorpusRecord) : Option ℚ :=
  match r.freqlemfilms2, r.freqlemlivres with
  | some a, some b => some ((a + b) / 2)
  | some a, none => some a
  | none, some b => some b
  | none, none => none

/-- `df_master[['freqlemfilms2','freqlemlivres']].mean(axis=1, skipna=True).mean()`:
the corpus-wide mean of the per-record skip-aware means, where the outer
`mean()` again skips NaN entries; NaN (`none`) if nothing remains. -/
def globalMean (c : Corpus) : Option ℚ :=
  let vals := c.rows.filterMap rowMeanSkip
  if vals.isEmpty then none else some (vals.sum / vals.length)

/-- The value of `row.get('genre', 'none') or 'none'` for a matched row:
the column default applies only when the `genre` column is absent from the
frame; Python `or` then replaces falsy values (the empty string, but not
NaN) by `'none'`. -/
def genreField (c : Corpus) (r : CorpusRecord) : GVal :=
  pyOr (if c.hasGenre then r.genre else GVal.str "none") (GVal.str "none")

/-- `((row.get('freqlemfilms2', 0) + row.get('freqlemlivres', 0)) / 2) or 0.0`
for a matched row: NaN-propagating pair average with Python-falsy zero
replaced by `0.0`. -/
def avgKnown (r : CorpusRecord) : Option ℚ :=
  pyOrF (halfF (addF r.freqlemfilms2 r.freqlemlivres)) (some 0)

/-- The single-row body of `prepare_input`: strip the word, look its
trimmed form up in the corpus, and build the feature record from the
matched row or from the unknown-word defaults. -/
def prepareRow (c : Corpus) (w : String) : FeatureRecord :=
  let w_str := pyStrip w
  match lookup c w_str with
  | some row =>
      { lemme := row.lemme
        cgram := row.cgram
        genre := genreField c row
        avg_freq := avgKnown row }
  | none =>
      { lemme := w_str
        cgram := "unknown"
        genre := GVal.str "none"
        avg_freq := globalMean c }

/-- `prepare_input(words)`: one feature record per input word. -/
def prepare_input (c : Corpus) (words : List String) : List FeatureRecord :=
  words.map (prepareRow c)

/-- The per-record values fed to `np.percentile`:
`df_master[['freqlemfilms2','freqlemlivres']].mean(axis=1, skipna=True).fillna(0)` —
skip-aware per-record means with fully-NaN records filled with `0`. -/
def freqSeries (c : Corpus) : List ℚ :=
  c.rows.map (fun r => (rowMeanSkip r).getD 0)

/-- List indexing with default `0`, used by the percentile interpolation. -/
def getQ (s : List ℚ) (k : Nat) : ℚ := s.getD k 0

/-- Linear interpolation at fractional position `pos` into the sorted
sample `s` (numpy's default interpolation). -/
def interpAt (s : List ℚ) (pos : ℚ) : ℚ :=
  let i : Nat := (Int.floor pos).toNat
  let j : Nat := min (i + 1) (s.length - 1)
  getQ s i + (pos - (i : ℚ)) * (getQ s j - getQ s i)

/-- `np.percentile(l, q)` with the default linear interpolation: sort the
sample ascending and interpolate at position `q * (n - 1) / 100`. -/
def npPercentile (l : List ℚ) (q : ℚ) : ℚ :=
  interpAt (l.insertionSort (· ≤ ·)) (q * ((l.length : ℚ) - 1) / 100)

/-- `q1, q2 = np.percentile(freq_series, [33, 66])`. -/
def estimateThresholds (c : Corpus) : ℚ × ℚ :=
  (npPercentile (freqSeries c) 33, npPercentile (freqSeries c) 66)

/-- Python `avg_f >= q` where `avg_f` may be NaN: any comparison with NaN
is false. -/
def pyGe (x : Option ℚ) (q : ℚ) : Bool :=
  match x with
  | none => false
  | some a => decide (q ≤ a)

/-- The unknown-word fallback of `predict_levels`:
`"Level 1"` if `avg_f >= q2`, else `"Level 2"` if `avg_f >= q1`, else
`"Level 3"`. -/
def fallbackLabel (q1 q2 : ℚ) (avg : Option ℚ) : String :=
  if pyGe avg q2 then "Level 1"
  else if pyGe avg q1 then "Level 2"
  else "Level 3"

/-- The membership test `w in df_master['lemme'].values` on the raw,
untrimmed input word. -/
def memberRaw (c : Corpus) (w : String) : Bool :=
  (c.rows.map (fun r => r.lemme)).contains w

/-- The per-word body of the `predict_levels` loop: build the feature
record for the word, then route known words (untrimmed membership) to the
classifier pipeline and encoder, and unknown words to the threshold
fallback on the record's `avg_freq`. -/
def resolveWord (c : Corpus) (q1 q2 : ℚ) (pl : FeatureRecord → Int)
    (le : Int → String) (w : String) : String :=
  let df_input := prepareRow c w
  if memberRaw c w then
    "Level " ++ le (pl df_input)
  else
    fallbackLabel q1 q2 df_input.avg_freq

/-- `predict_levels(words)`: load the pipeline and encoder (each load
aborts the process when its artifact is missing), compute the batch
thresholds, then resolve each word in order. -/
def predict_levels (modelOk encOk : Bool) (pl : FeatureRecord → Int)
    (le : Int → String) (c : Corpus) (words : List String) :
    Except String (List String) :=
  if modelOk = false then
    Except.error "Error: Model file not found at 'level_model.pkl'."
  else if encOk = false then
    Except.error "Error: Encoder file not found at 'label_encoder.pkl'."
  else
    let q := estimateThresholds c
    Except.ok (words.map (resolveWord c q.1 q.2 pl le))

/-- Observable outcome of one CLI invocation: exit code, stdout lines and
the optional `sys.exit` message (written to stderr). -/
structure RunResult where
  exitCode : Nat
  out : List String
  err : Option String
deriving DecidableEq, Repr

/-- The usage message printed by `print_usage`. -/
def usageMessage : String := "Usage: python predict_level.py <word1> <word2> ..."

/-- The `__main__` block: with an empty argument list print the usage
message and exit with code 1; otherwise run `predict_levels` (which may
abort on a missing artifact, emitting no predictions) and print one
`word -> level` line per word, in order. -/
def mainProgram (modelOk encOk : Bool) (pl : FeatureRecord → Int)
    (le : Int → String) (c : Corpus) (args : List String) : RunResult :=
  if args.isEmpty then
    { exitCode := 1, out := [usageMessage], err := none }
  else
    match predict_levels modelOk encOk pl le c args with
    | Except.error e => { exitCode := 1, out := [], err := some e }
    | Except.ok preds =>
        { exitCode := 0
          out := (args.zip preds).map (fun p => p.1 ++ " -> " ++ p.2)
          err := none }

/-- Resolution of one word with the batch thresholds of its corpus, as in
the body of `predict_levels`. -/
def resolveOne (c : Corpus) (pl : FeatureRecord → Int) (le : Int → String)
    (w : String) : String :=
  resolveWord c (estimateThresholds c).1 (estimateThresholds c).2 pl le w

/-- The per-record value the spec claims is fed to the percentile
computation (refinement comparison only): zero-fill each missing measure,
then halve the sum of the pair. -/
def specZeroFillSeries (c : Corpus) : List ℚ :=
  c.rows.map (fun r => (r.freqlemfilms2.getD 0 + r.freqlemlivres.getD 0) / 2)

/-! Concrete corpora and opaque-artifact stand-ins used by witnesses and
counterexamples. -/

/-- One-record corpus: both measures present and equal, so both batch
thresholds coincide at 100. -/
def cW1 : Corpus := ⟨[⟨"chat", "nom", GVal.str "m", some 100, some 100⟩], true⟩

/-- Three-record corpus with per-record means 1, 2, 3, giving distinct
batch thresholds 83/50 and 58/25. -/
def cW2 : Corpus :=
  ⟨[⟨"un", "det", GVal.str "m", some 1, some 1⟩,
    ⟨"de", "pre", GVal.str "m", some 2, some 2⟩,
    ⟨"le", "det", GVal.str "m", some 3, some 3⟩], true⟩

/-- One-record corpus whose record has a NaN films measure and a present
books measure of 4. -/
def cNaN : Corpus := ⟨[⟨"a", "nom", GVal.str "m", none, some 4⟩], true⟩

/-- Two-record corpus exercising the skip-aware global mean: one record
with a single present measure, one record with both measures NaN. -/
def cSkip : Corpus :=
  ⟨[⟨"chat", "nom", GVal.str "m", some 100, none⟩,
    ⟨"roi", "nom", GVal.str "m", none, none⟩], true⟩

/-- One-record corpus whose record has a NaN `genre` cell. -/
def cGen : Corpus := ⟨[⟨"chat", "nom", GVal.nan, some 1, some 1⟩], true⟩

/-- Deterministic classifier stand-in. -/
def pl0 : FeatureRecord → Int := fun _ => 0

/-- Deterministic encoder stand-in. -/
def le0 : Int → String := fun _ => "A1"

/-- A second classifier stand-in, distinct from `pl0`. -/
def pl1 : FeatureRecord → Int := fun _ => 1

/-- A second encoder stand-in, distinct from `le0`. -/
def le1 : Int → String := fun _ => "B2"

/-! Helper lemmas about the percentile interpolation. -/

/-- Indexing a sorted sample with default `0` is monotone within bounds. -/
lemma getQ_mono {s : List ℚ} (hs : List.Sorted (· ≤ ·) s) {a b : Nat}
    (hab : a ≤ b) (hb : b < s.length) : getQ s a ≤ getQ s b := by
  have ha : a < s.length := lt_of_le_of_lt hab hb
  unfold getQ
  rw [List.getD_eq_getElem _ _ ha, List.getD_eq_getElem _ _ hb]
  have h := hs.rel_get_of_le (a := ⟨a, ha⟩) (b := ⟨b, hb⟩) hab
  simpa using h

/-- With `0 ≤ h` the floor-index cast of `h` agrees with its floor. -/
lemma floorIdx_cast {h : ℚ} (h0 : 0 ≤ h) :
    (((Int.floor h).toNat : ℚ)) = ((Int.floor h : ℤ) : ℚ) := by
  exact_mod_cast congrArg (fun z : ℤ => (z : ℚ))
    (Int.toNat_of_nonneg (Int.floor_nonneg.mpr h0))

/-- The floor index of a position bounded by `n - 1` is at most `n - 1`. -/
lemma floorIdx_le {h : ℚ} {n : Nat} (hn : 0 < n) (hub : h ≤ (n : ℚ) - 1) :
    (Int.floor h).toNat ≤ n - 1 := by
  have hcast : ((n : ℚ) - 1) = (((n : ℤ) - 1 : ℤ) : ℚ) := by push_cast; ring
  have hfl : Int.floor h ≤ (n : ℤ) - 1 := by
    have := Int.floor_mono hub
    rwa [hcast, Int.floor_intCast] at this
  have := Int.toNat_le_toNat hfl
  omega

/-- Monotonicity of linear interpolation into a sorted sample. -/
lemma interpAt_mono {s : List ℚ} (hs : List.Sorted (· ≤ ·) s) (hne : s ≠ [])
    {h h' : ℚ} (h0 : 0 ≤ h) (hhh : h ≤ h')
    (hub : h' ≤ (s.length : ℚ) - 1) :
    interpAt s h ≤ interpAt s h' := by
  have hn : 0 < s.length := List.length_pos.mpr hne
  have h0' : 0 ≤ h' := le_trans h0 hhh
  set n := s.length with hn_def
  set i : Nat := (Int.floor h).toNat with hi_def
  set i' : Nat := (Int.floor h').toNat with hi'_def
  have hub1 : h ≤ (n : ℚ) - 1 := le_trans hhh hub
  have hic : ((i : ℚ)) = ((Int.floor h : ℤ) : ℚ) := floorIdx_cast h0
  have hic' : ((i' : ℚ)) = ((Int.floor h' : ℤ) : ℚ) := floorIdx_cast h0'
  have hi_le : (i : ℚ) ≤ h := by rw [hic]; exact Int.floor_le h
  have hi'_le : (i' : ℚ) ≤ h' := by rw [hic']; exact Int.floor_le h'
  have h_lt : h < (i : ℚ) + 1 := by rw [hic]; exact_mod_cast Int.lt_floor_add_one h
  have hii' : i ≤ i' := Int.toNat_le_toNat (Int.floor_mono hhh)
  have hi'_ub : i' ≤ n - 1 := floorIdx_le hn hub
  have hi_ub : i ≤ n - 1 := le_trans hii' hi'_ub
  have hi'_lt : i' < n := lt_of_le_of_lt hi'_ub (Nat.sub_lt hn one_pos)
  have hlast : n - 1 < n := Nat.sub_lt hn one_pos
  set j : Nat := min (i + 1) (n - 1) with hj_def
  set j' : Nat := min (i' + 1) (n - 1) with hj'_def
  have hij : i ≤ j := le_min (Nat.le_succ i) hi_ub
  have hijB : i' ≤ j' := le_min (Nat.le_succ i') hi'_ub
  have hjlt : j < n := lt_of_le_of_lt (min_le_right _ _) hlast
  have hj'lt : j' < n := lt_of_le_of_lt (min_le_right _ _) hlast
  have hgij : getQ s i ≤ getQ s j := getQ_mono hs hij hjlt
  have hgijB : getQ s i' ≤ getQ s j' := getQ_mono hs hijB hj'lt
  show getQ s i + (h - (i : ℚ)) * (getQ s j - getQ s i) ≤
    getQ s i' + (h' - (i' : ℚ)) * (getQ s j' - getQ s i')
  rcases eq_or_lt_of_le hii' with heq | hlt
  · have hjj : j = j' := by rw [hj_def, hj'_def, heq]
    rw [← heq, ← hjj]
    have key := mul_le_mul_of_nonneg_right (sub_le_sub_right hhh ((i : ℚ)))
      (sub_nonneg.mpr hgij)
    linarith
  · have step1 : getQ s i + (h - (i : ℚ)) * (getQ s j - getQ s i) ≤ getQ s j := by
      nlinarith [hgij]
    have hji' : j ≤ i' := le_trans (min_le_left _ _) hlt
    have step2 : getQ s j ≤ getQ s i' := getQ_mono hs hji' hi'_lt
    have step3 : getQ s i' ≤ getQ s i' + (h' - (i' : ℚ)) * (getQ s j' - getQ s i') := by
      nlinarith [hgijB]
    linarith

/-- `np.percentile` is monotone in the percentile rank on a nonempty
sample, for ranks between 0 and 100. -/
lemma npPercentile_mono (l : List ℚ) (hne : l ≠ []) {q q' : ℚ}
    (h0 : 0 ≤ q) (hqq : q ≤ q') (h100 : q' ≤ 100) :
    npPercentile l q ≤ npPercentile l q' := by
  have hs : List.Sorted (· ≤ ·) (l.insertionSort (· ≤ ·)) :=
    List.sorted_insertionSort _ l
  have hsl : (l.insertionSort (· ≤ ·)).length = l.length :=
    List.length_insertionSort _ l
  have hln : 0 < l.length := List.length_pos.mpr hne
  have hsne : l.insertionSort (· ≤ ·) ≠ [] := by
    intro hc
    rw [hc] at hsl
    simp at hsl
    omega
  have hm : (0 : ℚ) ≤ (l.length : ℚ) - 1 := by
    have : (1 : ℚ) ≤ (l.length : ℚ) := by exact_mod_cast hln
    linarith
  unfold npPercentile
  apply interpAt_mono hs hsne
  · exact div_nonneg (mul_nonneg h0 hm) (by norm_num)
  · rw [div_le_div_iff_of_pos_right (by norm_num : (0:ℚ) < 100)]
    exact mul_le_mul_of_nonneg_right hqq hm
  · rw [hsl]
    rw [div_le_iff₀ (by norm_num : (0:ℚ) < 100)]
    nlinarith

/-- A nonempty corpus yields a nonempty percentile sample. -/
lemma freqSeries_ne_nil {c : Corpus} (hne : c.rows ≠ []) :
    freqSeries c ≠ [] := by
  unfold freqSeries
  simpa using hne

/-- The batch thresholds of a nonempty corpus are ordered: the 33rd
percentile is at most the 66th percentile. -/
lemma thresholds_le (c : Corpus) (hne : c.rows ≠ []) :
    (estimateThresholds c).1 ≤ (estimateThresholds c).2 :=
  npPercentile_mono (freqSeries c) (freqSeries_ne_nil hne)
    (by norm_num) (by norm_num) (by norm_num)

/-- Zipping a list with its own image and joining with an arrow is the
same as mapping the joined form directly. -/
lemma zip_map_arrow (f : String → String) (l : List String) :
    (l.zip (l.map f)).map (fun p => p.1 ++ " -> " ++ p.2) =
      l.map (fun w => w ++ " -> " ++ f w) := by
  induction l with
  | nil => rfl
  | cons a t ih => simp [ih]

/-- The fallback label is always one of the three fixed level strings. -/
lemma fallbackLabel_mem (q1 q2 : ℚ) (avg : Option ℚ) :
    fallbackLabel q1 q2 avg = "Level 1" ∨ fallbackLabel q1 q2 avg = "Level 2" ∨
      fallbackLabel q1 q2 avg = "Level 3" := by
  unfold fallbackLabel
  split
  · left; rfl
  · split
    · right; left; rfl
    · right; right; rfl

/-- C7: for any corpus, the ThresholdPair `(q1, q2)` computed as the 33rd
and 66th percentile of the per-record mean-frequency sequence satisfies
`q1 ≤ q2` (stated for nonempty corpora; on an empty corpus `np.percentile`
raises and no pair is computed). -/
theorem C7_threshold_invariant (c : Corpus) (hne : c.rows ≠ []) :
    (estimateThresholds c).1 ≤ (estimateThresholds c).2 :=
  thresholds_le c hne

/-- Witness for C7 on a concrete three-record corpus. -/
theorem C7_witness :
    cW2.rows ≠ [] ∧ (estimateThresholds cW2).1 ≤ (estimateThresholds cW2).2 :=
  ⟨by decide, C7_threshold_invariant cW2 (by decide)⟩

/-- C2: routing is fully determined by untrimmed corpus membership: a
member word is resolved by the classifier-and-encoder path and its result
does not depend on the thresholds; a non-member word is resolved by the
threshold fallback and its result does not depend on the classifier or
encoder. -/
theorem C2_routing (c : Corpus) (q1 q2 : ℚ) (pl : FeatureRecord → Int)
    (le : Int → String) (w : String) :
    (memberRaw c w = true →
      resolveWord c q1 q2 pl le w = "Level " ++ le (pl (prepareRow c w)) ∧
      ∀ q1' q2' : ℚ, resolveWord c q1' q2' pl le w = resolveWord c q1 q2 pl le w) ∧
    (memberRaw c w = false →
      resolveWord c q1 q2 pl le w = fallbackLabel q1 q2 (prepareRow c w).avg_freq ∧
      ∀ (pl' : FeatureRecord → Int) (le' : Int → String),
        resolveWord c q1 q2 pl' le' w = resolveWord c q1 q2 pl le w) := by
  constructor
  · intro h
    exact ⟨by simp [resolveWord, h], fun q1' q2' => by simp [resolveWord, h]⟩
  · intro h
    exact ⟨by simp [resolveWord, h], fun pl' le' => by simp [resolveWord, h]⟩

/-- Witness for C2: a member word of a concrete corpus goes through the
classifier stand-ins and a non-member word ignores them. -/
theorem C2_witness :
    memberRaw cW1 "chat" = true ∧
    resolveWord cW1 7 9 pl0 le0 "chat" = "Level " ++ le0 (pl0 (prepareRow cW1 "chat")) ∧
    memberRaw cW1 "xyz" = false ∧
    resolveWord cW1 7 9 pl1 le1 "xyz" = resolveWord cW1 7 9 pl0 le0 "xyz" :=
  ⟨by decide, ((C2_routing cW1 7 9 pl0 le0 "chat").1 (by decide)).1, by decide,
    ((C2_routing cW1 7 9 pl0 le0 "xyz").2 (by decide)).2 pl1 le1⟩

/-- Both batch thresholds of the one-record corpus `cW1` are 100. -/
lemma cW1_thresholds : estimateThresholds cW1 = (100, 100) := by
  norm_num [estimateThresholds, freqSeries, rowMeanSkip, cW1, npPercentile,
    interpAt, getQ, List.insertionSort, List.orderedInsert]

/-- The unknown word "xyz" receives the global mean 100 in `cW1`. -/
lemma cW1_avg : (prepareRow cW1 "xyz").avg_freq = some 100 := by
  have hlk : lookup cW1 (pyStrip "xyz") = none := by decide
  simp only [prepareRow, hlk]
  norm_num [globalMean, rowMeanSkip, cW1, List.filterMap]

/-- The batch thresholds of the three-record corpus `cW2`. -/
lemma cW2_thresholds : estimateThresholds cW2 = (83 / 50, 58 / 25) := by
  norm_num [estimateThresholds, freqSeries, rowMeanSkip, cW2, npPercentile,
    interpAt, getQ, List.insertionSort, List.orderedInsert, Int.floor_eq_iff]

/-- The unknown word "xyz" receives the global mean 2 in `cW2`. -/
lemma cW2_avg : (prepareRow cW2 "xyz").avg_freq = some 2 := by
  have hlk : lookup cW2 (pyStrip "xyz") = none := by decide
  simp only [prepareRow, hlk]
  norm_num [globalMean, rowMeanSkip, cW2, List.filterMap]

/-- C1 counterexample: in the corpus `cW1` both batch thresholds equal
100 and the unknown word "xyz" has average frequency exactly `q1`, yet
the emitted label is "Level 1" and not "Level 2", contradicting the
claim's boundary statement that an average exactly equal to `q1` yields
"Level 2". -/
theorem C1_counterexample :
    memberRaw cW1 "xyz" = false ∧
    estimateThresholds cW1 = (100, 100) ∧
    (prepareRow cW1 "xyz").avg_freq = some 100 ∧
    resolveOne cW1 pl0 le0 "xyz" = "Level 1" ∧
    resolveOne cW1 pl0 le0 "xyz" ≠ "Level 2" := by
  have h1 : memberRaw cW1 "xyz" = false := by decide
  have hres : resolveOne cW1 pl0 le0 "xyz" =
      fallbackLabel (estimateThresholds cW1).1 (estimateThresholds cW1).2
        (prepareRow cW1 "xyz").avg_freq := by
    simp [resolveOne, resolveWord, h1]
  refine ⟨h1, cW1_thresholds, cW1_avg, ?_, ?_⟩
  · rw [hres, cW1_thresholds, cW1_avg]
    norm_num [fallbackLabel, pyGe]
  · rw [hres, cW1_thresholds, cW1_avg]
    norm_num [fallbackLabel, pyGe]
    decide

/-- C1 (amended): for every word without an untrimmed corpus match, the
resolver compares the feature record's averageFrequency to the batch
thresholds with closed lower and open upper bucket boundaries
(`avg ≥ q2` yields "Level 1", `q1 ≤ avg < q2` yields "Level 2",
`avg < q1` yields "Level 3"), the emitted label is always one of exactly
the three fallback labels, an average exactly equal to `q2` yields
"Level 1", and an average exactly equal to `q1` yields "Level 2"
provided `q1 < q2` (when `q1 = q2` the first bucket applies). -/
theorem C1_fallback_classification (c : Corpus) (pl : FeatureRecord → Int)
    (le : Int → String) (w : String) (hne : c.rows ≠ [])
    (hw : memberRaw c w = false) :
    (resolveOne c pl le w = "Level 1" ∨ resolveOne c pl le w = "Level 2" ∨
      resolveOne c pl le w = "Level 3") ∧
    (∀ a : ℚ, (prepareRow c w).avg_freq = some a →
      ((estimateThresholds c).2 ≤ a → resolveOne c pl le w = "Level 1") ∧
      ((estimateThresholds c).1 ≤ a → a < (estimateThresholds c).2 →
        resolveOne c pl le w = "Level 2") ∧
      (a < (estimateThresholds c).1 → resolveOne c pl le w = "Level 3") ∧
      (a = (estimateThresholds c).2 → resolveOne c pl le w = "Level 1") ∧
      (a = (estimateThresholds c).1 →
        (estimateThresholds c).1 < (estimateThresholds c).2 →
        resolveOne c pl le w = "Level 2")) := by
  have hq : (estimateThresholds c).1 ≤ (estimateThresholds c).2 :=
    thresholds_le c hne
  have hres : resolveOne c pl le w =
      fallbackLabel (estimateThresholds c).1 (estimateThresholds c).2
        (prepareRow c w).avg_freq := by
    simp [resolveOne, resolveWord, hw]
  constructor
  · rw [hres]
    exact fallbackLabel_mem _ _ _
  · intro a ha
    rw [hres, ha]
    refine ⟨?_, ?_, ?_, ?_, ?_⟩
    · intro h
      simp [fallbackLabel, pyGe, h]
    · intro h1 h2
      have hn2 : ¬ ((estimateThresholds c).2 ≤ a) := not_le.mpr h2
      simp [fallbackLabel, pyGe, hn2, h1]
    · intro h
      have hn2 : ¬ ((estimateThresholds c).2 ≤ a) :=
        not_le.mpr (lt_of_lt_of_le h hq)
      have hn1 : ¬ ((estimateThresholds c).1 ≤ a) := not_le.mpr h
      simp [fallbackLabel, pyGe, hn1, hn2]
    · intro h
      simp [fallbackLabel, pyGe, h.ge]
    · intro h hlt
      have hn2 : ¬ ((estimateThresholds c).2 ≤ a) := not_le.mpr (h ▸ hlt)
      simp [fallbackLabel, pyGe, hn2, h.ge]

/-- Witness for C1 on `cW2`: the unknown word "xyz" with average 2 falls
strictly between the thresholds and is labelled "Level 2". -/
theorem C1_witness :
    cW2.rows ≠ [] ∧ memberRaw cW2 "xyz" = false ∧
    resolveOne cW2 pl0 le0 "xyz" = "Level 2" := by
  refine ⟨by decide, by decide, ?_⟩
  have h := (C1_fallback_classification cW2 pl0 le0 "xyz" (by decide)
    (by decide)).2 2 cW2_avg
  exact h.2.1 (by rw [cW2_thresholds]; norm_num) (by rw [cW2_thresholds]; norm_num)

/-- NaN on the left of the pair sum propagates. -/
lemma addF_none_left (x : Option ℚ) : addF none x = none := rfl

/-- NaN on the right of the pair sum propagates. -/
lemma addF_none_right (x : Option ℚ) : addF x none = none := by
  cases x <;> rfl

/-- With both measures present, the known-word average is the halved pair
sum. -/
lemma avgKnown_some {r : CorpusRecord} {f b : ℚ} (hf : r.freqlemfilms2 = some f)
    (hb : r.freqlemlivres = some b) : avgKnown r = some ((f + b) / 2) := by
  unfold avgKnown
  rw [hf, hb]
  by_cases hz : (f + b) / 2 = 0
  · simp [addF, halfF, pyOrF, hz]
  · simp [addF, halfF, pyOrF, hz]

/-- A NaN films measure makes the known-word average NaN. -/
lemma avgKnown_nanL {r : CorpusRecord} (h : r.freqlemfilms2 = none) :
    avgKnown r = none := by
  unfold avgKnown
  rw [h, addF_none_left]
  rfl

/-- A NaN books measure makes the known-word average NaN. -/
lemma avgKnown_nanR {r : CorpusRecord} (h : r.freqlemlivres = none) :
    avgKnown r = none := by
  unfold avgKnown
  rw [h, addF_none_right]
  rfl

/-- Feature record of a word whose trimmed form matches a corpus row. -/
lemma prepareRow_known {c : Corpus} {w : String} {r : CorpusRecord}
    (hr : lookup c (pyStrip w) = some r) :
    prepareRow c w = ⟨r.lemme, r.cgram, genreField c r, avgKnown r⟩ := by
  simp [prepareRow, hr]

/-- Feature record of a word whose trimmed form matches no corpus row. -/
lemma prepareRow_unknown {c : Corpus} {w : String}
    (h : lookup c (pyStrip w) = none) :
    prepareRow c w = ⟨pyStrip w, "unknown", GVal.str "none", globalMean c⟩ := by
  simp [prepareRow, h]

/-- C3 counterexample: in the corpus `cNaN`, whose single record has a
NaN films measure and a books measure of 4, the percentile input is `[4]`
(the present measure, skipped-NaN mean), not `[2]` (the zero-filled mean
the claim describes), and both thresholds are 4 rather than 2. -/
theorem C3_counterexample :
    freqSeries cNaN = [4] ∧ specZeroFillSeries cNaN = [2] ∧
    freqSeries cNaN ≠ specZeroFillSeries cNaN ∧
    estimateThresholds cNaN = (4, 4) := by
  have h1 : freqSeries cNaN = [4] := by
    norm_num [freqSeries, rowMeanSkip, cNaN]
  have h2 : specZeroFillSeries cNaN = [2] := by
    norm_num [specZeroFillSeries, cNaN]
  refine ⟨h1, h2, ?_, ?_⟩
  · rw [h1, h2]
    intro hc
    have : (4 : ℚ) = 2 := by injection hc
    norm_num at this
  · rw [show estimateThresholds cNaN =
      (npPercentile (freqSeries cNaN) 33, npPercentile (freqSeries cNaN) 66) from rfl, h1]
    norm_num [npPercentile, interpAt, getQ, List.insertionSort, List.orderedInsert]

/-- C3 (amended): the per-record mean entering the percentile computation
skips missing measures (a record with one present measure `f` contributes
`f`, not `f / 2`) and only a record with both measures missing is filled
with zero; `q1` and `q2` are then the 33rd and 66th percentile of that
per-record sequence. -/
theorem C3_percentile_input (c : Corpus) (r : CorpusRecord) :
    ((∀ f b : ℚ, r.freqlemfilms2 = some f → r.freqlemlivres = some b →
        (rowMeanSkip r).getD 0 = (f + b) / 2) ∧
     (∀ f : ℚ, r.freqlemfilms2 = some f → r.freqlemlivres = none →
        (rowMeanSkip r).getD 0 = f) ∧
     (∀ b : ℚ, r.freqlemfilms2 = none → r.freqlemlivres = some b →
        (rowMeanSkip r).getD 0 = b) ∧
     (r.freqlemfilms2 = none → r.freqlemlivres = none →
        (rowMeanSkip r).getD 0 = 0)) ∧
    freqSeries c = c.rows.map (fun s => (rowMeanSkip s).getD 0) ∧
    estimateThresholds c =
      (npPercentile (freqSeries c) 33, npPercentile (freqSeries c) 66) := by
  refine ⟨⟨?_, ?_, ?_, ?_⟩, rfl, rfl⟩
  · intro f b hf hb
    simp [rowMeanSkip, hf, hb]
  · intro f hf hb
    simp [rowMeanSkip, hf, hb]
  · intro b hf hb
    simp [rowMeanSkip, hf, hb]
  · intro hf hb
    simp [rowMeanSkip, hf, hb]

/-- Witness for C3 on the record of `cNaN`: one present measure 4 and one
NaN measure contribute 4 to the percentile input. -/
theorem C3_witness :
    cNaN.rows = [⟨"a", "nom", GVal.str "m", none, some 4⟩] ∧
    (rowMeanSkip ⟨"a", "nom", GVal.str "m", none, some 4⟩).getD 0 = 4 :=
  ⟨rfl, (C3_percentile_input cNaN ⟨"a", "nom", GVal.str "m", none, some 4⟩).1.2.2.1
    4 rfl rfl⟩

/-- C4 counterexample: for the known word "a" of `cNaN`, one measure is
NaN and the other is 4, and the feature record's averageFrequency is NaN,
not 4/2 as the claim requires. -/
theorem C4_counterexample :
    lookup cNaN (pyStrip "a") = some ⟨"a", "nom", GVal.str "m", none, some 4⟩ ∧
    (prepareRow cNaN "a").avg_freq = none ∧
    (prepareRow cNaN "a").avg_freq ≠ some ((4 : ℚ) / 2) := by
  have h0 : (prepareRow cNaN "a").avg_freq = none := rfl
  refine ⟨by decide, h0, ?_⟩
  rw [h0]
  simp

/-- C4 (amended): for a query word whose trimmed form matches a corpus
record, the feature record's averageFrequency is `(films + books) / 2`
when both measures are present (with a falsy zero average substituted by
`0.0`, numerically a no-op), while a NaN in either measure propagates and
makes the averageFrequency NaN. -/
theorem C4_known_avg (c : Corpus) (w : String) (r : CorpusRecord)
    (hr : lookup c (pyStrip w) = some r) :
    (∀ f b : ℚ, r.freqlemfilms2 = some f → r.freqlemlivres = some b →
      (prepareRow c w).avg_freq = some ((f + b) / 2)) ∧
    (r.freqlemfilms2 = none ∨ r.freqlemlivres = none →
      (prepareRow c w).avg_freq = none) := by
  have hp : (prepareRow c w).avg_freq = avgKnown r := by
    rw [prepareRow_known hr]
  constructor
  · intro f b hf hb
    rw [hp, avgKnown_some hf hb]
  · intro hcase
    rcases hcase with h | h
    · rw [hp, avgKnown_nanL h]
    · rw [hp, avgKnown_nanR h]

/-- Witness for C4 on `cW1`: the known word "chat" with both measures 100
has averageFrequency `(100 + 100) / 2`. -/
theorem C4_witness :
    lookup cW1 (pyStrip "chat") =
      some ⟨"chat", "nom", GVal.str "m", some 100, some 100⟩ ∧
    (prepareRow cW1 "chat").avg_freq = some (((100 : ℚ) + 100) / 2) :=
  ⟨by decide,
    (C4_known_avg cW1 "chat" ⟨"chat", "nom", GVal.str "m", some 100, some 100⟩
      (by decide)).1 100 100 rfl rfl⟩

/-- C5 counterexample: the word " a" (with a leading space) is not an
untrimmed member of `cNaN`, its trimmed form matches the record with a
NaN films measure and books measure 4, and the averageFrequency used in
the fallback comparison is NaN — not the zero-filled pair average
`(0 + 4) / 2` the claim describes. -/
theorem C5_counterexample :
    memberRaw cNaN " a" = false ∧
    lookup cNaN (pyStrip " a") = some ⟨"a", "nom", GVal.str "m", none, some 4⟩ ∧
    (prepareRow cNaN " a").avg_freq = none ∧
    (prepareRow cNaN " a").avg_freq ≠ some (((0 : ℚ) + 4) / 2) := by
  have h0 : (prepareRow cNaN " a").avg_freq = none := rfl
  refine ⟨by decide, by decide, h0, ?_⟩
  rw [h0]
  simp

/-- C5 (amended): a word whose raw form is absent from the lemma column
but whose trimmed form matches a corpus record takes the threshold
fallback, and the averageFrequency used in the threshold comparison is
the matched record's known-word pair average — NaN-propagating, equal to
the zero-filled pair average when both measures are present — not the
corpus-wide skip-aware global mean. -/
theorem C5_whitespace_fallback (c : Corpus) (q1 q2 : ℚ)
    (pl : FeatureRecord → Int) (le : Int → String) (w : String)
    (r : CorpusRecord) (hw : memberRaw c w = false)
    (hr : lookup c (pyStrip w) = some r) :
    resolveWord c q1 q2 pl le w = fallbackLabel q1 q2 (avgKnown r) ∧
    (prepareRow c w).avg_freq = avgKnown r ∧
    (∀ f b : ℚ, r.freqlemfilms2 = some f → r.freqlemlivres = some b →
      avgKnown r = some ((f + b) / 2)) := by
  have hp : (prepareRow c w).avg_freq = avgKnown r := by
    rw [prepareRow_known hr]
  refine ⟨?_, hp, ?_⟩
  · simp [resolveWord, hw, hp]
  · intro f b hf hb
    exact avgKnown_some hf hb

/-- Witness for C5 on `cW2`: the word " un" with a leading space falls
back to the thresholds yet uses the matched record's pair average 1, not
the global mean 2. -/
theorem C5_witness :
    memberRaw cW2 " un" = false ∧
    resolveWord cW2 (83 / 50) (58 / 25) pl0 le0 " un" =
      fallbackLabel (83 / 50) (58 / 25)
        (avgKnown ⟨"un", "det", GVal.str "m", some 1, some 1⟩) ∧
    avgKnown ⟨"un", "det", GVal.str "m", some 1, some 1⟩ =
      some (((1 : ℚ) + 1) / 2) := by
  have h := C5_whitespace_fallback cW2 (83 / 50) (58 / 25) pl0 le0 " un"
    ⟨"un", "det", GVal.str "m", some 1, some 1⟩ (by decide) (by decide)
  exact ⟨by decide, h.1, h.2.2 1 1 rfl rfl⟩

/-- C6: a query word whose trimmed form matches no corpus lemma receives
the feature record with the trimmed input as lemma, category "unknown",
gender "none", and the corpus-wide mean of per-record means as its
averageFrequency, where each per-record mean skips missing measures and
the outer mean skips record-level NaN. -/
theorem C6_unknown_features (c : Corpus) (w : String)
    (h : lookup c (pyStrip w) = none) :
    prepareRow c w = ⟨pyStrip w, "unknown", GVal.str "none", globalMean c⟩ ∧
    globalMean c = (if (c.rows.filterMap rowMeanSkip).isEmpty then none
      else some ((c.rows.filterMap rowMeanSkip).sum /
        ((c.rows.filterMap rowMeanSkip).length : ℚ))) ∧
    (∀ r : CorpusRecord, ∀ f : ℚ, r.freqlemfilms2 = some f →
      r.freqlemlivres = none → rowMeanSkip r = some f) ∧
    (∀ r : CorpusRecord, r.freqlemfilms2 = none → r.freqlemlivres = none →
      rowMeanSkip r = none) := by
  refine ⟨prepareRow_unknown h, rfl, ?_, ?_⟩
  · intro r f hf hb
    simp [rowMeanSkip, hf, hb]
  · intro r hf hb
    simp [rowMeanSkip, hf, hb]

/-- Witness for C6 on `cSkip`: the unknown word "xyzzy123" receives the
default fields and the skip-aware global mean 100 (the half-present
record contributes 100, the fully-NaN record is skipped). -/
theorem C6_witness :
    prepareRow cSkip "xyzzy123" =
      ⟨"xyzzy123", "unknown", GVal.str "none", globalMean cSkip⟩ ∧
    globalMean cSkip = some 100 := by
  have h := C6_unknown_features cSkip "xyzzy123" (by decide)
  constructor
  · rw [h.1, show pyStrip "xyzzy123" = "xyzzy123" from by decide]
  · norm_num [globalMean, rowMeanSkip, cSkip, List.filterMap]

/-- C8 counterexample: the known word "chat" of `cGen` has a NaN `genre`
cell, and the feature record's gender field is NaN (NaN is Python-truthy,
so `or 'none'` does not replace it), not the "none" sentinel the claim
requires. -/
theorem C8_counterexample :
    cGen.hasGenre = true ∧
    lookup cGen (pyStrip "chat") = some ⟨"chat", "nom", GVal.nan, some 1, some 1⟩ ∧
    (prepareRow cGen "chat").genre = GVal.nan ∧
    (prepareRow cGen "chat").genre ≠ GVal.str "none" := by
  refine ⟨rfl, by decide, ?_, ?_⟩
  · rfl
  · intro hc
    rw [show (prepareRow cGen "chat").genre = GVal.nan from rfl] at hc
    exact GVal.noConfusion hc

/-- C8 (amended): the feature record's gender field is "none" whenever
the word is unknown, the `genre` column is absent, or the matched cell is
the empty string; a NaN cell propagates as NaN (it is Python-truthy);
otherwise the field is the corpus record's gender value. -/
theorem C8_gender_field (c : Corpus) (w : String) :
    (lookup c (pyStrip w) = none → (prepareRow c w).genre = GVal.str "none") ∧
    (∀ r : CorpusRecord, lookup c (pyStrip w) = some r →
      (c.hasGenre = false → (prepareRow c w).genre = GVal.str "none") ∧
      (c.hasGenre = true → r.genre = GVal.str "" →
        (prepareRow c w).genre = GVal.str "none") ∧
      (c.hasGenre = true → r.genre = GVal.nan →
        (prepareRow c w).genre = GVal.nan) ∧
      (∀ s : String, c.hasGenre = true → r.genre = GVal.str s → s ≠ "" →
        (prepareRow c w).genre = GVal.str s)) := by
  constructor
  · intro h
    rw [prepareRow_unknown h]
  · intro r hr
    have hp : (prepareRow c w).genre = genreField c r := by
      rw [prepareRow_known hr]
    refine ⟨?_, ?_, ?_, ?_⟩
    · intro hg
      rw [hp]
      simp [genreField, hg, pyOr, GVal.truthy]
    · intro hg hnan
      rw [hp]
      simp [genreField, hg, hnan, pyOr, GVal.truthy]
    · intro hg hnan
      rw [hp]
      simp [genreField, hg, hnan, pyOr, GVal.truthy]
    · intro s hg hs hne
      rw [hp]
      simp [genreField, hg, hs, pyOr, GVal.truthy, hne]

/-- Witness for C8 on `cW1`: an unknown word gets gender "none" and the
known word "chat" keeps its corpus gender "m". -/
theorem C8_witness :
    (prepareRow cW1 "xyz").genre = GVal.str "none" ∧
    (prepareRow cW1 "chat").genre = GVal.str "m" :=
  ⟨(C8_gender_field cW1 "xyz").1 (by decide),
    ((C8_gender_field cW1 "chat").2 ⟨"chat", "nom", GVal.str "m", some 100, some 100⟩
      (by decide)).2.2.2 "m" rfl rfl (by decide)⟩

/-- With both artifacts present, `predict_levels` resolves every word with
the batch thresholds, in input order. -/
lemma predict_levels_ok (pl : FeatureRecord → Int) (le : Int → String)
    (c : Corpus) (words : List String) :
    predict_levels true true pl le c words =
      Except.ok (words.map (resolveOne c pl le)) := rfl

/-- C9: if the classifier artifact or the encoder artifact cannot be
loaded, `predict_levels` aborts with an error before resolving any word
and the invocation emits no prediction lines; with both artifacts
present it produces one result per input word. -/
theorem C9_failfast (modelOk encOk : Bool) (pl : FeatureRecord → Int)
    (le : Int → String) (c : Corpus) (words : List String) :
    ((modelOk = false ∨ encOk = false) →
      (∃ e : String, predict_levels modelOk encOk pl le c words = Except.error e) ∧
      (words ≠ [] → (mainProgram modelOk encOk pl le c words).out = [] ∧
        (mainProgram modelOk encOk pl le c words).exitCode = 1)) ∧
    (modelOk = true → encOk = true →
      predict_levels modelOk encOk pl le c words =
        Except.ok (words.map (resolveOne c pl le)) ∧
      (words.map (resolveOne c pl le)).length = words.length) := by
  constructor
  · intro h
    have herr : ∃ e : String,
        predict_levels modelOk encOk pl le c words = Except.error e := by
      rcases h with h | h
      · subst h
        exact ⟨_, rfl⟩
      · subst h
        cases modelOk <;> exact ⟨_, rfl⟩
    refine ⟨herr, ?_⟩
    intro hw
    obtain ⟨e, he⟩ := herr
    have hie : words.isEmpty = false := by
      simpa [List.isEmpty_iff] using hw
    simp [mainProgram, hie, he]
  · intro h1 h2
    subst h1
    subst h2
    exact ⟨predict_levels_ok pl le c words, List.length_map _ _⟩

/-- Witness for C9: a missing classifier on `cW1` yields no output lines,
and with both artifacts present the one-word batch produces one result. -/
theorem C9_witness :
    (mainProgram false true pl0 le0 cW1 ["chat"]).out = [] ∧
    predict_levels true true pl0 le0 cW1 ["chat"] =
      Except.ok (["chat"].map (resolveOne cW1 pl0 le0)) :=
  ⟨(((C9_failfast false true pl0 le0 cW1 ["chat"]).1 (Or.inl rfl)).2
      (by decide)).1,
    ((C9_failfast true true pl0 le0 cW1 ["chat"]).2 rfl rfl).1⟩

/-- C10: an empty input list produces the usage message, exit code 1 and
zero predictions; a non-empty list (with both artifacts present) produces
exactly one "word -> Level label" line per input word, in input order. -/
theorem C10_cli (modelOk encOk : Bool) (pl : FeatureRecord → Int)
    (le : Int → String) (c : Corpus) (args : List String) :
    (args = [] → mainProgram modelOk encOk pl le c args =
      ⟨1, [usageMessage], none⟩) ∧
    (args ≠ [] → modelOk = true → encOk = true →
      (mainProgram modelOk encOk pl le c args).out =
        args.map (fun w => w ++ " -> " ++ resolveOne c pl le w) ∧
      ∀ w : String, ∃ lab : String, resolveOne c pl le w = "Level " ++ lab) := by
  constructor
  · intro h
    subst h
    rfl
  · intro hne h1 h2
    subst h1
    subst h2
    have hie : args.isEmpty = false := by
      simpa [List.isEmpty_iff] using hne
    constructor
    · have hm : (mainProgram true true pl le c args).out =
          (args.zip (args.map (resolveOne c pl le))).map
            (fun p => p.1 ++ " -> " ++ p.2) := by
        simp [mainProgram, hie, predict_levels_ok]
      rw [hm, zip_map_arrow]
    · intro w
      unfold resolveOne resolveWord
      by_cases hmem : memberRaw c w = true
      · rw [if_pos hmem]
        exact ⟨_, rfl⟩
      · rw [if_neg hmem]
        rcases fallbackLabel_mem (estimateThresholds c).1 (estimateThresholds c).2
          (prepareRow c w).avg_freq with h | h | h
        · exact ⟨"1", by rw [h]; rfl⟩
        · exact ⟨"2", by rw [h]; rfl⟩
        · exact ⟨"3", by rw [h]; rfl⟩

/-- Witness for C10: the empty argument list prints the usage message with
exit code 1, and a one-word batch prints its single arrow line. -/
theorem C10_witness :
    mainProgram true true pl0 le0 cW1 ([] : List String) =
      ⟨1, [usageMessage], none⟩ ∧
    (mainProgram true true pl0 le0 cW1 ["xyz"]).out =
      ["xyz" ++ " -> " ++ resolveOne cW1 pl0 le0 "xyz"] := by
  refine ⟨(C10_cli true true pl0 le0 cW1 []).1 rfl, ?_⟩
  have h := ((C10_cli true true pl0 le0 cW1 ["xyz"]).2 (by decide) rfl rfl).1
  simpa using h

end PredictLevel
